import Mathlib

/-!
Shallow embedding of the Ryu spine-leaf controller
(`src/ryu_controller/spine_leaf_controller.py`, helpers from
`src/ryu_controller/base_switch.py`).

MAC addresses keep their Python string representation; an IPv4 dotted-quad
string `"a.b.c.d"` is embedded as the octet list `[a, b, c, d]`, so the
Python expression `sum(map(int, ip.split(".")))` becomes `List.sum`.
The static `Network` object (class `Network` of the repository's `utils`
module, instantiated from a YAML file) is not under `src/` and is modelled
from the spec as an opaque configuration: spine ids, leaf ids and the
inter-switch link ports the controller reads via `net.links[(a, b)]["port"]`.
The metrics collaborator is excluded from the model (the spec treats it as
an external component the core never blocks on).
-/

abbrev Mac : Type := String

abbrev Ip : Type := List Nat

/-- Constants from `ryu.ofproto.ofproto_v1_3`. -/
def OFPP_ALL : Nat := 0xfffffffc

def OFPP_CONTROLLER : Nat := 0xfffffffd

def ETH_TYPE_IP : Nat := 0x0800

def IPPROTO_TCP : Nat := 6

def IPPROTO_UDP : Nat := 17

/-- Table and priority constants from `spine_leaf_controller.py`. -/
def ENTRY_TABLE : Nat := 0

def LOCAL_TABLE : Nat := 0

def REMOTE_TABLE : Nat := 1

def MIN_PRIORITY : Nat := 0

def LOW_PRIORITY : Nat := 100

def MID_PRIORITY : Nat := 300

def LONG_IDLE_TIME : Nat := 60

def MID_IDLE_TIME : Nat := 40

def IDLE_TIME : Nat := 30

/-- Ethernet header as extracted by the handler (`eth.dst`, `eth.src`). -/
structure EthHeader where
  dst : Mac
  src : Mac
deriving DecidableEq

/-- ARP header; only the opcode is read by the handler. -/
structure ArpHeader where
  opcode : Nat
deriving DecidableEq

/-- IPv4 header; the handler reads `ip_pkt.src` and `ip_pkt.dst`. -/
structure Ipv4Header where
  src : Ip
  dst : Ip
deriving DecidableEq

/-- TCP/UDP header; the handler reads `src_port` and `dst_port`. -/
structure L4Header where
  src_port : Nat
  dst_port : Nat
deriving DecidableEq

/-- The `header_list` dictionary built in `packet_in_handler`: for each
protocol name, the decoded header when present in the parsed packet. -/
structure ParsedPacket where
  eth : Option EthHeader
  arp : Option ArpHeader
  ipv4 : Option Ipv4Header
  tcp : Option L4Header
  udp : Option L4Header
deriving DecidableEq

/-- Protocol names returned by `get_ipv4_packet_info` (`TCP`, `UDP`, `ICMP`). -/
inductive Proto where
  | tcp
  | udp
  | icmp
deriving DecidableEq

/-- The 5-tuple returned by `get_ipv4_packet_info`. -/
structure PacketInfo where
  protocol : Proto
  src_ip : Ip
  dst_ip : Ip
  src_port : Nat
  dst_port : Nat
deriving DecidableEq

/-- Keyword arguments of a `parser.OFPMatch(...)` call; a field is `none`
when the corresponding keyword is not given, i.e. the rule does not match
on that header field. -/
structure OFMatch where
  in_port : Option Nat := none
  eth_dst : Option Mac := none
  eth_type : Option Nat := none
  ipv4_src : Option Ip := none
  ipv4_dst : Option Ip := none
  ip_proto : Option Nat := none
  tcp_src : Option Nat := none
  tcp_dst : Option Nat := none
  udp_src : Option Nat := none
  udp_dst : Option Nat := none
deriving DecidableEq

/-- An OpenFlow output action (`parser.OFPActionOutput(port)`). -/
inductive OFAction where
  | output (port : Nat)
deriving DecidableEq

/-- Messages the controller sends to a switch: `add_flow` FlowMods
(table, priority, idle timeout, match, apply-actions instruction) and
`forward_packet` PacketOuts (in-port, actions, frame data). -/
inductive Msg where
  | flowMod (tableId priority idleTime : Nat) (m : OFMatch) (actions : List OFAction)
  | packetOut (inPort : Nat) (actions : List OFAction) (data : ParsedPacket)
deriving DecidableEq

/-- Modelled from the spec: the `Network` class of the repository's `utils`
module (imported at `spine_leaf_controller.py:20`, instantiated from
`network_config.yaml` at line 523) is not under `src/`.  The spec (§6)
describes it as an opaque startup configuration; the controller reads
`net.spines`, `net.leaves` and `net.links[(a, b)]["port"]`, so the model
carries exactly those: the spine id list, the leaf id list, and the port of
switch `a` on its link towards switch `b` (`none` when no such link is
configured, where Python would raise `KeyError`). -/
structure Network where
  spines : List Nat
  leaves : List Nat
  linkPort : Nat → Nat → Option Nat

/-- Modelled from the spec: port classification (§3) — over the static
configuration, the ports of a switch that appear on a link towards a spine
are its uplink (fabric) ports. -/
def uplinkPortsOf (net : Network) (dpid : Nat) : List Nat :=
  net.spines.filterMap (fun s => net.linkPort dpid s)

/-- One entry of `self.mac_table`: the dictionary `{"port": ..., "dpid": ...}`
stored per source MAC. -/
structure HostEntry where
  port : Nat
  dpid : Nat
deriving DecidableEq

/-- Controller state touched by `packet_in_handler`: the MAC table. -/
structure ControllerState where
  mac_table : Mac → Option HostEntry

/-- `update_mac_table(src, port, dpid)`: fetch the entry for `src` (or a
fresh one), set its `port` and `dpid` fields, and store it back. -/
def update_mac_table (st : ControllerState) (src : Mac) (port dpid : Nat) :
    ControllerState :=
  { st with mac_table := fun m => if m = src then some ⟨port, dpid⟩ else st.mac_table m }

/-- `get_ipv4_packet_info(pkt, header_list)`: the IPv4 5-tuple; `none` models
the `KeyError` Python raises when no IPv4 header is present. -/
def get_ipv4_packet_info (header_list : ParsedPacket) : Option PacketInfo :=
  match header_list.ipv4 with
  | none => none
  | some ip_pkt =>
    match header_list.tcp with
    | some tcp_pkt => some ⟨Proto.tcp, ip_pkt.src, ip_pkt.dst, tcp_pkt.src_port, tcp_pkt.dst_port⟩
    | none =>
      match header_list.udp with
      | some udp_pkt => some ⟨Proto.udp, ip_pkt.src, ip_pkt.dst, udp_pkt.src_port, udp_pkt.dst_port⟩
      | none => some ⟨Proto.icmp, ip_pkt.src, ip_pkt.dst, 0, 0⟩

/-- `select_spine_from_packet_info(packet_info, num_spines)`: sum of the
source-IP octets, destination-IP octets and both transport ports, modulo
the number of spines. -/
def select_spine_from_packet_info (packet_info : PacketInfo) (num_spines : Nat) : Nat :=
  (packet_info.src_ip.sum + packet_info.dst_ip.sum
    + packet_info.src_port + packet_info.dst_port) % num_spines

/-- `create_match_entry_at_leaf(datapath, table, priority, idle_time,
packet_info, out_port)` without the `datapath` handle: one FlowMod whose
match depends on the protocol of `packet_info`. -/
def create_match_entry_at_leaf (table priority idle_time : Nat)
    (packet_info : PacketInfo) (out_port : Nat) : List Msg :=
  let m : OFMatch :=
    match packet_info.protocol with
    | Proto.tcp =>
      { eth_type := some ETH_TYPE_IP, ipv4_src := some packet_info.src_ip,
        ipv4_dst := some packet_info.dst_ip, ip_proto := some IPPROTO_TCP,
        tcp_src := some packet_info.src_port, tcp_dst := some packet_info.dst_port }
    | Proto.udp =>
      { eth_type := some ETH_TYPE_IP, ipv4_src := some packet_info.src_ip,
        ipv4_dst := some packet_info.dst_ip, ip_proto := some IPPROTO_UDP,
        udp_src := some packet_info.src_port, udp_dst := some packet_info.dst_port }
    | Proto.icmp =>
      { eth_type := some ETH_TYPE_IP, ipv4_src := some packet_info.src_ip,
        ipv4_dst := some packet_info.dst_ip }
  [Msg.flowMod table priority idle_time m [OFAction.output out_port]]

/-- `create_match_entry_at_spine(datapath, table, priority, packet_info,
in_port, out_port, i_time)` without the `datapath` handle. -/
def create_match_entry_at_spine (table priority : Nat) (packet_info : PacketInfo)
    (in_port out_port i_time : Nat) : List Msg :=
  let m : OFMatch :=
    match packet_info.protocol with
    | Proto.tcp =>
      { in_port := some in_port, eth_type := some ETH_TYPE_IP,
        ipv4_src := some packet_info.src_ip, ipv4_dst := some packet_info.dst_ip,
        ip_proto := some IPPROTO_TCP, tcp_src := some packet_info.src_port,
        tcp_dst := some packet_info.dst_port }
    | Proto.udp =>
      { in_port := some in_port, eth_type := some ETH_TYPE_IP,
        ipv4_src := some packet_info.src_ip, ipv4_dst := some packet_info.dst_ip,
        ip_proto := some IPPROTO_UDP, udp_src := some packet_info.src_port,
        udp_dst := some packet_info.dst_port }
    | Proto.icmp =>
      { in_port := some in_port, eth_type := some ETH_TYPE_IP,
        ipv4_src := some packet_info.src_ip, ipv4_dst := some packet_info.dst_ip }
  [Msg.flowMod table priority i_time m [OFAction.output out_port]]

/-- `remote_switches = list(set(net.leaves) - set([datapath.id]))`
(`spine_leaf_controller.py:202`); the Python set iteration order is
unspecified and nothing downstream depends on it. -/
def remote_switches (net : Network) (dpid : Nat) : List Nat :=
  net.leaves.filter (fun l => l ≠ dpid)

/-- The flood loop used for ARP packets and for unknown destinations: for
every remote leaf, `forward_packet(dpath, data, OFPP_CONTROLLER, OFPP_ALL)`. -/
def flood_to_remote (net : Network) (dpid : Nat) (pkt : ParsedPacket) :
    List (Nat × Msg) :=
  (remote_switches net dpid).map
    (fun leaf => (leaf, Msg.packetOut OFPP_CONTROLLER [OFAction.output OFPP_ALL] pkt))

/-- Result of one `packet_in_handler` call: the controller state when the
handler finished or raised, every message sent before that point paired
with the id of the switch it was sent to, and the uncaught exception if
one was raised. -/
structure HandlerResult where
  state : ControllerState
  sent : List (Nat × Msg)
  err : Option String

/-- `packet_in_handler(event)` of `SpineLeaf3`, for a packet-in from switch
`dpid` on port `in_port` carrying the parsed frame `pkt`.  Mirrors the
Python control flow: extract the Ethernet header (`KeyError` when absent),
update the MAC table, then branch on ARP / IPv4 / other; the IPv4 branch
first installs the reverse rule `eth_dst=src → in_port`, then either
programs the leaf/spine path towards a destination known on a remote leaf,
does nothing more for a destination known locally, or floods to the remote
leaves for an unknown destination.  Metrics calls are omitted. -/
def packet_in_handler (net : Network) (st : ControllerState) (dpid in_port : Nat)
    (pkt : ParsedPacket) : HandlerResult :=
  match pkt.eth with
  | none => ⟨st, [], some "KeyError"⟩
  | some eth =>
    let dst := eth.dst
    let src := eth.src
    let st1 := update_mac_table st src in_port dpid
    if pkt.arp.isSome then
      ⟨st1, flood_to_remote net dpid pkt, none⟩
    else
      match pkt.ipv4 with
      | none => ⟨st1, [], none⟩
      | some _ =>
        let rev_msg : Nat × Msg :=
          (dpid, Msg.flowMod LOCAL_TABLE LOW_PRIORITY LONG_IDLE_TIME
            { eth_dst := some src } [OFAction.output in_port])
        match get_ipv4_packet_info pkt with
        | none => ⟨st1, [rev_msg], some "KeyError"⟩
        | some packet_info =>
          match st1.mac_table dst with
          | some dst_host =>
            if dst_host.dpid ∈ remote_switches net dpid then
              match net.spines.get?
                  (select_spine_from_packet_info packet_info net.spines.length) with
              | none => ⟨st1, [rev_msg], some "IndexError"⟩
              | some spine_id =>
                match net.linkPort dpid spine_id with
                | none => ⟨st1, [rev_msg], some "KeyError"⟩
                | some upstream_port =>
                  let leaf_msgs :=
                    (create_match_entry_at_leaf REMOTE_TABLE MID_PRIORITY IDLE_TIME
                      packet_info upstream_port).map (fun msg => (dpid, msg))
                  match net.linkPort spine_id dpid, net.linkPort spine_id dst_host.dpid with
                  | some spine_ingress_port, some spine_egress_port =>
                    ⟨st1,
                      rev_msg :: (leaf_msgs
                        ++ (create_match_entry_at_spine ENTRY_TABLE MID_PRIORITY
                              packet_info spine_ingress_port spine_egress_port
                              MID_IDLE_TIME).map (fun msg => (spine_id, msg))
                        ++ [(dst_host.dpid,
                              Msg.packetOut OFPP_CONTROLLER
                                [OFAction.output dst_host.port] pkt)]),
                      none⟩
                  | _, _ => ⟨st1, rev_msg :: leaf_msgs, some "KeyError"⟩
            else
              ⟨st1, [rev_msg], none⟩
          | none => ⟨st1, rev_msg :: flood_to_remote net dpid pkt, none⟩

/-- One packet-in event: origin switch, ingress port, parsed frame. -/
structure PacketInEvent where
  dpid : Nat
  in_port : Nat
  pkt : ParsedPacket

/-- Run a sequence of packet-in events through the handler, keeping the
controller state (messages are sent to switches, not accumulated here). -/
def run_events (net : Network) (st : ControllerState) (evs : List PacketInEvent) :
    ControllerState :=
  evs.foldl (fun s ev => (packet_in_handler net s ev.dpid ev.in_port ev.pkt).state) st

/-- The ingress port and switch of the last event in `evs` whose frame has
source MAC `m`, if any. -/
def last_seen_from (evs : List PacketInEvent) (m : Mac) : Option (Nat × Nat) :=
  evs.foldl
    (fun acc ev =>
      if ev.pkt.eth.map (fun e => e.src) = some m then some (ev.in_port, ev.dpid) else acc)
    none

/-- Static link-port map of the 2-spine / 3-leaf topology built by
`src/mininet/spine_leaf.py`: each leaf's host ports are 1–3 and its uplinks
towards spines 1 and 2 are ports 4 and 5; each spine's port towards leaf
`3 + i` is `1 + i`. -/
def demoLinks : Nat → Nat → Option Nat := fun a b =>
  match a, b with
  | 3, 1 => some 4
  | 3, 2 => some 5
  | 4, 1 => some 4
  | 4, 2 => some 5
  | 5, 1 => some 4
  | 5, 2 => some 5
  | 1, 3 => some 1
  | 1, 4 => some 2
  | 1, 5 => some 3
  | 2, 3 => some 1
  | 2, 4 => some 2
  | 2, 5 => some 3
  | _, _ => none

/-- The demo network: spines 1–2, leaves 3–5. -/
def demoNet : Network := ⟨[1, 2], [3, 4, 5], demoLinks⟩

/-- An empty MAC table. -/
def emptyState : ControllerState := ⟨fun _ => none⟩

/-- A MAC table that knows host `"bb"` at switch 4, port 2. -/
def stBBRemote : ControllerState :=
  ⟨fun m => if m = "bb" then some ⟨2, 4⟩ else none⟩

/-- A MAC table that knows host `"bb"` at switch 3, port 2. -/
def stBBLocal : ControllerState :=
  ⟨fun m => if m = "bb" then some ⟨2, 3⟩ else none⟩

/-- A MAC table that knows host `"aa"` at switch 3, port 1. -/
def stAAatPort1 : ControllerState :=
  ⟨fun m => if m = "aa" then some ⟨1, 3⟩ else none⟩

/-- A plain Ethernet-only frame from `"aa"` to `"bb"`. -/
def pktPlain : ParsedPacket := ⟨some ⟨"bb", "aa"⟩, none, none, none, none⟩

/-- A UDP/IPv4 frame from `"aa"`/10.0.0.11:5000 to `"bb"`/10.0.0.21:7000. -/
def pktUdp : ParsedPacket :=
  ⟨some ⟨"bb", "aa"⟩, none, some ⟨[10, 0, 0, 11], [10, 0, 0, 21]⟩, none, some ⟨5000, 7000⟩⟩

/-- An ARP request frame from `"aa"` (broadcast destination). -/
def pktArpReq : ParsedPacket :=
  ⟨some ⟨"ff:ff:ff:ff:ff:ff", "aa"⟩, some ⟨1⟩, none, none, none⟩

/-- A broadcast UDP/IPv4 frame from `"aa"` (DHCP-style). -/
def pktBroadcast : ParsedPacket :=
  ⟨some ⟨"ff:ff:ff:ff:ff:ff", "aa"⟩, none,
    some ⟨[10, 0, 0, 11], [255, 255, 255, 255]⟩, none, some ⟨68, 67⟩⟩

/-- An ICMP/IPv4 frame from `"aa"` to `"bb"`. -/
def pktIcmp : ParsedPacket :=
  ⟨some ⟨"bb", "aa"⟩, none, some ⟨[10, 0, 0, 11], [10, 0, 0, 21]⟩, none, none⟩

/-- A frame whose payload could not be decoded as Ethernet. -/
def pktUndecodable : ParsedPacket := ⟨none, none, none, none, none⟩

/-- Does a message install a flow rule? -/
def isFlowModMsg : Nat × Msg → Bool
  | (_, Msg.flowMod _ _ _ _ _) => true
  | _ => false

/-- Is a message a packet-out? -/
def isPacketOutMsg : Nat × Msg → Bool
  | (_, Msg.packetOut _ _ _) => true
  | _ => false

/-- Does a message install a rule matching exactly the given destination MAC? -/
def matchesDstMac (mac : Mac) : Nat × Msg → Bool
  | (_, Msg.flowMod _ _ _ m _) => m.eth_dst = some mac
  | _ => false

/-- The controller state produced by one handler call: unchanged when the
Ethernet header is missing, otherwise the MAC-table update for the source
MAC — every branch of the handler returns this state. -/
theorem handler_state_eq (net : Network) (st : ControllerState) (dpid p : Nat)
    (pkt : ParsedPacket) :
    (packet_in_handler net st dpid p pkt).state =
      (match pkt.eth with
       | none => st
       | some eth => update_mac_table st eth.src p dpid) := by
  unfold packet_in_handler
  cases pkt.eth with
  | none => rfl
  | some eth =>
    dsimp only
    split
    · rfl
    · split
      · rfl
      · split
        · rfl
        · split
          · split
            · split
              · rfl
              · split
                · rfl
                · split
                  · rfl
                  · rfl
            · rfl
          · rfl

/-- Pointwise version of `handler_state_eq`: the MAC table after one handler
call, at an arbitrary key. -/
theorem mac_after_handler (net : Network) (st : ControllerState) (dpid p : Nat)
    (pkt : ParsedPacket) (m : Mac) :
    (packet_in_handler net st dpid p pkt).state.mac_table m =
      (if pkt.eth.map (fun e => e.src) = some m then some ⟨p, dpid⟩
       else st.mac_table m) := by
  rw [handler_state_eq]
  cases h : pkt.eth with
  | none => simp
  | some eth =>
    simp only [Option.map_some', update_mac_table, Option.some.injEq]
    by_cases hm : m = eth.src
    · simp [hm]
    · rw [if_neg (show ¬eth.src = m from fun h' => hm h'.symm)]
      simp [hm]

/-- C7 counterexample: on a packet-in whose payload has no decodable
Ethernet header, `packet_in_handler` does not terminate normally — it
raises an uncaught `KeyError` at `header_list[ETHERNET]`
(`spine_leaf_controller.py:190`), contradicting the claim that such a
packet is dropped silently. -/
theorem C7_counterexample :
    (packet_in_handler demoNet emptyState 3 1 pktUndecodable).err = some "KeyError" := by
  decide

/-- C7 amended: a packet-in without a decodable Ethernet header makes the
handler raise a `KeyError` before anything else happens — no controller
state is mutated and no message is sent, but termination is by an uncaught
exception, not a silent drop. -/
theorem C7_undecodable_raises_without_mutation (net : Network) (st : ControllerState)
    (dpid p : Nat) (pkt : ParsedPacket) (h : pkt.eth = none) :
    packet_in_handler net st dpid p pkt = ⟨st, [], some "KeyError"⟩ := by
  unfold packet_in_handler
  rw [h]

/-- Witness for `C7_undecodable_raises_without_mutation` at a concrete
undecodable frame. -/
theorem C7_witness :
    pktUndecodable.eth = none ∧
      packet_in_handler demoNet emptyState 3 1 pktUndecodable =
        ⟨emptyState, [], some "KeyError"⟩ :=
  ⟨rfl, C7_undecodable_raises_without_mutation demoNet emptyState 3 1 pktUndecodable rfl⟩

/-- C1 counterexample: in the demo network, port 4 of leaf 3 is an uplink
(fabric) port, host `"aa"`'s location record is (port 1, switch 3), and a
frame from `"aa"` arriving on that uplink port rewrites the record's port
field to 4 — the claim says the port field must be left unchanged for an
uplink ingress. -/
theorem C1_counterexample :
    4 ∈ uplinkPortsOf demoNet 3 ∧
      stAAatPort1.mac_table "aa" = some ⟨1, 3⟩ ∧
      (packet_in_handler demoNet stAAatPort1 3 4 pktPlain).state.mac_table "aa" =
        some ⟨4, 3⟩ := by
  refine ⟨by decide, by decide, by decide⟩

/-- C1 amended: `update_mac_table` is called unconditionally on every
decodable packet-in (`spine_leaf_controller.py:199`), so the source MAC's
location record is always overwritten with the current ingress port and
switch id, with no host-facing/uplink port classification anywhere. -/
theorem C1_mac_update_unconditional (net : Network) (st : ControllerState)
    (dpid p : Nat) (pkt : ParsedPacket) (eth : EthHeader) (h : pkt.eth = some eth) :
    (packet_in_handler net st dpid p pkt).state.mac_table eth.src = some ⟨p, dpid⟩ := by
  rw [mac_after_handler, h]
  simp

/-- Witness for `C1_mac_update_unconditional`: the counterexample input,
where the ingress port 4 is an uplink port of leaf 3. -/
theorem C1_witness :
    pktPlain.eth = some ⟨"bb", "aa"⟩ ∧
      (packet_in_handler demoNet stAAatPort1 3 4 pktPlain).state.mac_table "aa" =
        some ⟨4, 3⟩ :=
  ⟨rfl, C1_mac_update_unconditional demoNet stAAatPort1 3 4 pktPlain ⟨"bb", "aa"⟩ rfl⟩

/-- C8 confirmed: the spine-selection hash is symmetric under swapping the
source (IP, port) with the destination (IP, port), and for a positive spine
count the returned index is always below that count, so both directions of
a flow hash to the same spine. -/
theorem C8_spine_hash_symmetric_total (protocol : Proto) (src_ip dst_ip : Ip)
    (src_port dst_port n : Nat) (h : 0 < n) :
    select_spine_from_packet_info ⟨protocol, src_ip, dst_ip, src_port, dst_port⟩ n =
        select_spine_from_packet_info ⟨protocol, dst_ip, src_ip, dst_port, src_port⟩ n ∧
      select_spine_from_packet_info ⟨protocol, src_ip, dst_ip, src_port, dst_port⟩ n < n := by
  constructor
  · unfold select_spine_from_packet_info
    dsimp only
    congr 1
    ring
  · exact Nat.mod_lt _ h

/-- Witness for `C8_spine_hash_symmetric_total` on concrete addresses,
ports and two spines. -/
theorem C8_witness :
    select_spine_from_packet_info ⟨Proto.udp, [10, 0, 0, 11], [10, 0, 0, 21], 5000, 7000⟩ 2 =
        select_spine_from_packet_info ⟨Proto.udp, [10, 0, 0, 21], [10, 0, 0, 11], 7000, 5000⟩ 2 ∧
      select_spine_from_packet_info ⟨Proto.udp, [10, 0, 0, 11], [10, 0, 0, 21], 5000, 7000⟩ 2 < 2 :=
  C8_spine_hash_symmetric_total Proto.udp [10, 0, 0, 11] [10, 0, 0, 21] 5000 7000 2 (by decide)

/-- C10 confirmed: an IPv4 packet with neither a TCP nor a UDP header is
classified by `get_ipv4_packet_info` as ICMP with both ports 0, and the
leaf flow rule built for that 5-tuple matches only on EtherType-IPv4 plus
the source and destination IP addresses (every other match field absent). -/
theorem C10_icmp_classification_and_match (pkt : ParsedPacket) (ip4 : Ipv4Header)
    (h1 : pkt.ipv4 = some ip4) (h2 : pkt.tcp = none) (h3 : pkt.udp = none)
    (table priority idle_time out_port : Nat) :
    get_ipv4_packet_info pkt = some ⟨Proto.icmp, ip4.src, ip4.dst, 0, 0⟩ ∧
      create_match_entry_at_leaf table priority idle_time
          ⟨Proto.icmp, ip4.src, ip4.dst, 0, 0⟩ out_port =
        [Msg.flowMod table priority idle_time
          { eth_type := some ETH_TYPE_IP, ipv4_src := some ip4.src,
            ipv4_dst := some ip4.dst } [OFAction.output out_port]] := by
  constructor
  · unfold get_ipv4_packet_info
    rw [h1, h2, h3]
  · rfl

/-- Witness for `C10_icmp_classification_and_match` on a concrete ICMP
frame and rule parameters. -/
theorem C10_witness :
    get_ipv4_packet_info pktIcmp =
        some ⟨Proto.icmp, [10, 0, 0, 11], [10, 0, 0, 21], 0, 0⟩ ∧
      create_match_entry_at_leaf REMOTE_TABLE MID_PRIORITY IDLE_TIME
          ⟨Proto.icmp, [10, 0, 0, 11], [10, 0, 0, 21], 0, 0⟩ 4 =
        [Msg.flowMod REMOTE_TABLE MID_PRIORITY IDLE_TIME
          { eth_type := some ETH_TYPE_IP, ipv4_src := some [10, 0, 0, 11],
            ipv4_dst := some [10, 0, 0, 21] } [OFAction.output 4]] :=
  C10_icmp_classification_and_match pktIcmp ⟨[10, 0, 0, 11], [10, 0, 0, 21]⟩
    rfl rfl rfl REMOTE_TABLE MID_PRIORITY IDLE_TIME 4

/-- Folding the last-seen accumulator over a list either finds a hit in the
list or returns the starting accumulator. -/
theorem last_seen_from_acc (m : Mac) (evs : List PacketInEvent)
    (acc : Option (Nat × Nat)) :
    evs.foldl
        (fun acc ev =>
          if ev.pkt.eth.map (fun e => e.src) = some m then some (ev.in_port, ev.dpid)
          else acc)
        acc =
      (match last_seen_from evs m with
       | some x => some x
       | none => acc) := by
  induction evs generalizing acc with
  | nil => rfl
  | cons ev rest ih =>
    rw [List.foldl_cons, ih]
    have h3 :
        last_seen_from (ev :: rest) m =
          rest.foldl
            (fun acc ev =>
              if ev.pkt.eth.map (fun e => e.src) = some m then some (ev.in_port, ev.dpid)
              else acc)
            (if ev.pkt.eth.map (fun e => e.src) = some m then some (ev.in_port, ev.dpid)
             else none) := rfl
    rw [h3, ih]
    cases hls : last_seen_from rest m with
    | some x => rfl
    | none =>
      by_cases hc : ev.pkt.eth.map (fun e => e.src) = some m
      · simp [hc]
      · simp [hc]

/-- C9 confirmed: over any sequence of packet-in events, each MAC's table
entry is exactly the ingress port and switch id of the most recent
decodable frame whose source was that MAC, and a MAC never observed keeps
its previous entry — in particular no entry is ever removed, the table only
grows, and the last writer wins regardless of which port the frame arrived
on.  (`update_mac_table` is the only statement in the controller that
writes `self.mac_table`, which the embedding reflects: the handler's
returned state is the MAC-table update and nothing else.) -/
theorem C9_mac_table_last_writer_wins (net : Network) (st : ControllerState)
    (evs : List PacketInEvent) (m : Mac) :
    (run_events net st evs).mac_table m =
      (match last_seen_from evs m with
       | some pd => some ⟨pd.1, pd.2⟩
       | none => st.mac_table m) := by
  induction evs generalizing st with
  | nil => rfl
  | cons ev rest ih =>
    have hrun :
        run_events net st (ev :: rest) =
          run_events net (packet_in_handler net st ev.dpid ev.in_port ev.pkt).state rest :=
      rfl
    rw [hrun, ih]
    have h3 :
        last_seen_from (ev :: rest) m =
          rest.foldl
            (fun acc ev =>
              if ev.pkt.eth.map (fun e => e.src) = some m then some (ev.in_port, ev.dpid)
              else acc)
            (if ev.pkt.eth.map (fun e => e.src) = some m then some (ev.in_port, ev.dpid)
             else none) := rfl
    rw [h3, last_seen_from_acc]
    cases hls : last_seen_from rest m with
    | some x => rfl
    | none =>
      rw [mac_after_handler]
      by_cases hc : ev.pkt.eth.map (fun e => e.src) = some m
      · simp [hc]
      · simp [hc]

/-- C3 counterexample: an ARP request arriving at leaf 3 on port 2 is sent
to the two other leaves to be flooded out all their ports; nothing is sent
to the ingress switch and no proxy reply out the ingress port exists, even
though the code never consults any IP-to-MAC table (none exists). -/
theorem C3_counterexample :
    (packet_in_handler demoNet emptyState 3 2 pktArpReq).sent =
        [(4, Msg.packetOut OFPP_CONTROLLER [OFAction.output OFPP_ALL] pktArpReq),
          (5, Msg.packetOut OFPP_CONTROLLER [OFAction.output OFPP_ALL] pktArpReq)] ∧
      (packet_in_handler demoNet emptyState 3 2 pktArpReq).sent.all
          (fun pr => pr.1 ≠ 3) = true := by
  refine ⟨by decide, by decide⟩

/-- C3 amended: every ARP packet-in (request or reply, known target or not)
is relayed to each other leaf switch as a packet-out flooding the original
frame (`OFPP_ALL`); no proxy ARP reply is ever synthesized and nothing is
sent back to the ingress switch. -/
theorem C3_arp_flooded_to_remote_leaves (net : Network) (st : ControllerState)
    (dpid p : Nat) (pkt : ParsedPacket) (eth : EthHeader) (a : ArpHeader)
    (h1 : pkt.eth = some eth) (h2 : pkt.arp = some a) :
    packet_in_handler net st dpid p pkt =
        ⟨update_mac_table st eth.src p dpid, flood_to_remote net dpid pkt, none⟩ ∧
      ∀ pr ∈ flood_to_remote net dpid pkt,
        pr.1 ≠ dpid ∧ pr.2 = Msg.packetOut OFPP_CONTROLLER [OFAction.output OFPP_ALL] pkt := by
  constructor
  · unfold packet_in_handler
    rw [h1]
    dsimp only
    rw [h2]
    rfl
  · intro pr hpr
    simp only [flood_to_remote, remote_switches, List.mem_map, List.mem_filter,
      decide_eq_true_eq] at hpr
    obtain ⟨leaf, ⟨_, hne⟩, rfl⟩ := hpr
    exact ⟨hne, rfl⟩

/-- Witness for `C3_arp_flooded_to_remote_leaves` on a concrete ARP request
at leaf 3, port 2. -/
theorem C3_witness :
    packet_in_handler demoNet emptyState 3 2 pktArpReq =
        ⟨update_mac_table emptyState "aa" 2 3, flood_to_remote demoNet 3 pktArpReq, none⟩ ∧
      ∀ pr ∈ flood_to_remote demoNet 3 pktArpReq,
        pr.1 ≠ 3 ∧ pr.2 = Msg.packetOut OFPP_CONTROLLER [OFAction.output OFPP_ALL] pktArpReq :=
  C3_arp_flooded_to_remote_leaves demoNet emptyState 3 2 pktArpReq
    ⟨"ff:ff:ff:ff:ff:ff", "aa"⟩ ⟨1⟩ rfl rfl

/-- C4 counterexample: a broadcast UDP/IPv4 frame arriving at leaf 3 on
port 2 does install a flow rule (the reverse rule `eth_dst = src → port 2`)
and is packet-out flooded with `OFPP_ALL` at the two other leaf switches —
not output restricted to the host-facing ports of the ingress switch, and
not rule-free as the claim requires. -/
theorem C4_counterexample :
    (packet_in_handler demoNet emptyState 3 2 pktBroadcast).sent.any isFlowModMsg = true ∧
      (packet_in_handler demoNet emptyState 3 2 pktBroadcast).sent =
        (3, Msg.flowMod LOCAL_TABLE LOW_PRIORITY LONG_IDLE_TIME
              { eth_dst := some "aa" } [OFAction.output 2]) ::
          flood_to_remote demoNet 3 pktBroadcast := by
  refine ⟨by decide, by decide⟩

/-- C4 amended: an IPv4 frame whose destination MAC is not in the MAC table
— which is always the case for the broadcast and multicast addresses, since
only observed source MACs are inserted — causes the handler to install the
low-priority reverse rule `eth_dst = source MAC → ingress port` on the
ingress switch and to packet-out the frame with output `OFPP_ALL` at every
other leaf switch; there is no host-port-restricted flood and a rule is
installed. -/
theorem C4_broadcast_floods_and_installs (net : Network) (st : ControllerState)
    (dpid p : Nat) (pkt : ParsedPacket) (eth : EthHeader) (ip4 : Ipv4Header)
    (h1 : pkt.eth = some eth) (h2 : pkt.arp = none) (h3 : pkt.ipv4 = some ip4)
    (h4 : (update_mac_table st eth.src p dpid).mac_table eth.dst = none) :
    packet_in_handler net st dpid p pkt =
      ⟨update_mac_table st eth.src p dpid,
        (dpid, Msg.flowMod LOCAL_TABLE LOW_PRIORITY LONG_IDLE_TIME
            { eth_dst := some eth.src } [OFAction.output p]) ::
          flood_to_remote net dpid pkt,
        none⟩ := by
  obtain ⟨info, hinfo⟩ : ∃ info, get_ipv4_packet_info pkt = some info := by
    unfold get_ipv4_packet_info
    rw [h3]
    cases pkt.tcp with
    | some t => exact ⟨_, rfl⟩
    | none =>
      cases pkt.udp with
      | some u => exact ⟨_, rfl⟩
      | none => exact ⟨_, rfl⟩
  unfold packet_in_handler
  rw [h1]
  dsimp only
  rw [if_neg (show ¬(pkt.arp.isSome = true) from by simp [h2])]
  rw [h3]
  dsimp only
  rw [hinfo]
  dsimp only
  rw [h4]

/-- Witness for `C4_broadcast_floods_and_installs` on a concrete broadcast
frame at leaf 3, port 2. -/
theorem C4_witness :
    packet_in_handler demoNet emptyState 3 2 pktBroadcast =
      ⟨update_mac_table emptyState "aa" 2 3,
        (3, Msg.flowMod LOCAL_TABLE LOW_PRIORITY LONG_IDLE_TIME
            { eth_dst := some "aa" } [OFAction.output 2]) ::
          flood_to_remote demoNet 3 pktBroadcast,
        none⟩ :=
  C4_broadcast_floods_and_installs demoNet emptyState 3 2 pktBroadcast
    ⟨"ff:ff:ff:ff:ff:ff", "aa"⟩ ⟨[10, 0, 0, 11], [255, 255, 255, 255]⟩
    rfl rfl rfl (by decide)

/-- C5 counterexample: with host `"bb"` known at (switch 3, port 2), an
ICMP frame for `"bb"` arriving at switch 3 on port 1 triggers no packet-out
at all, and no rule matching destination MAC `"bb"` is installed — only the
reverse rule for the source MAC — contradicting the claimed install of an
exact-destination rule plus packet-out. -/
theorem C5_counterexample :
    stBBLocal.mac_table "bb" = some ⟨2, 3⟩ ∧
      (packet_in_handler demoNet stBBLocal 3 1 pktIcmp).sent.any isPacketOutMsg = false ∧
      (packet_in_handler demoNet stBBLocal 3 1 pktIcmp).sent.any (matchesDstMac "bb") = false := by
  refine ⟨by decide, by decide, by decide⟩

/-- C5 amended: for a unicast IPv4 packet-in whose destination MAC is known
on the ingress switch itself (more precisely: its recorded switch id is not
one of the other leaves), the handler installs only the low-priority
reverse rule `eth_dst = source MAC → ingress port` and emits no packet-out;
delivery of the triggering frame is left to the switch's own table-miss
flood. -/
theorem C5_same_switch_only_reverse_rule (net : Network) (st : ControllerState)
    (dpid p : Nat) (pkt : ParsedPacket) (eth : EthHeader) (ip4 : Ipv4Header)
    (dst_host : HostEntry)
    (h1 : pkt.eth = some eth) (h2 : pkt.arp = none) (h3 : pkt.ipv4 = some ip4)
    (h4 : (update_mac_table st eth.src p dpid).mac_table eth.dst = some dst_host)
    (h5 : dst_host.dpid ∉ remote_switches net dpid) :
    packet_in_handler net st dpid p pkt =
      ⟨update_mac_table st eth.src p dpid,
        [(dpid, Msg.flowMod LOCAL_TABLE LOW_PRIORITY LONG_IDLE_TIME
            { eth_dst := some eth.src } [OFAction.output p])],
        none⟩ := by
  obtain ⟨info, hinfo⟩ : ∃ info, get_ipv4_packet_info pkt = some info := by
    unfold get_ipv4_packet_info
    rw [h3]
    cases pkt.tcp with
    | some t => exact ⟨_, rfl⟩
    | none =>
      cases pkt.udp with
      | some u => exact ⟨_, rfl⟩
      | none => exact ⟨_, rfl⟩
  unfold packet_in_handler
  rw [h1]
  dsimp only
  rw [if_neg (show ¬(pkt.arp.isSome = true) from by simp [h2])]
  rw [h3]
  dsimp only
  rw [hinfo]
  dsimp only
  rw [h4]
  dsimp only
  rw [if_neg h5]

/-- Witness for `C5_same_switch_only_reverse_rule` on the concrete
same-switch scenario of the counterexample. -/
theorem C5_witness :
    packet_in_handler demoNet stBBLocal 3 1 pktIcmp =
      ⟨update_mac_table stBBLocal "aa" 1 3,
        [(3, Msg.flowMod LOCAL_TABLE LOW_PRIORITY LONG_IDLE_TIME
            { eth_dst := some "aa" } [OFAction.output 1])],
        none⟩ :=
  C5_same_switch_only_reverse_rule demoNet stBBLocal 3 1 pktIcmp
    ⟨"bb", "aa"⟩ ⟨[10, 0, 0, 11], [10, 0, 0, 21]⟩ ⟨2, 3⟩
    rfl rfl rfl (by decide) (by decide)

/-- C2 counterexample: with `"bb"` known at remote leaf 4 (so its coarse
location differs from switch 3, where source `"aa"` was just seen), a
UDP/IPv4 packet-in at switch 3 both installs flow rules and emits a
packet-out — the handler does not record-and-stop as the claim states. -/
theorem C2_counterexample :
    stBBRemote.mac_table "bb" = some ⟨2, 4⟩ ∧
      (packet_in_handler demoNet stBBRemote 3 1 pktUdp).sent.any isFlowModMsg = true ∧
      (packet_in_handler demoNet stBBRemote 3 1 pktUdp).sent.any isPacketOutMsg = true := by
  refine ⟨by decide, by decide, by decide⟩

/-- C2 amended: for an IPv4 packet-in whose destination MAC is known at one
of the other leaves, the handler does not stop: it installs the reverse
rule on the ingress switch, a 5-tuple rule on the ingress leaf towards the
hash-selected spine, a 5-tuple rule on that spine towards the destination
leaf, and emits a packet-out of the frame at the destination leaf out the
destination's known port.  No cross-switch counter short-circuits the
processing. -/
theorem C2_known_remote_installs_and_forwards (net : Network) (st : ControllerState)
    (dpid p : Nat) (pkt : ParsedPacket) (eth : EthHeader) (ip4 : Ipv4Header)
    (info : PacketInfo) (dst_host : HostEntry)
    (spine_id upstream_port spine_ingress_port spine_egress_port : Nat)
    (h1 : pkt.eth = some eth) (h2 : pkt.arp = none) (h3 : pkt.ipv4 = some ip4)
    (h4 : get_ipv4_packet_info pkt = some info)
    (h5 : (update_mac_table st eth.src p dpid).mac_table eth.dst = some dst_host)
    (h6 : dst_host.dpid ∈ remote_switches net dpid)
    (h7 : net.spines.get? (select_spine_from_packet_info info net.spines.length) =
      some spine_id)
    (h8 : net.linkPort dpid spine_id = some upstream_port)
    (h9 : net.linkPort spine_id dpid = some spine_ingress_port)
    (h10 : net.linkPort spine_id dst_host.dpid = some spine_egress_port) :
    packet_in_handler net st dpid p pkt =
      ⟨update_mac_table st eth.src p dpid,
        (dpid, Msg.flowMod LOCAL_TABLE LOW_PRIORITY LONG_IDLE_TIME
            { eth_dst := some eth.src } [OFAction.output p]) ::
          ((create_match_entry_at_leaf REMOTE_TABLE MID_PRIORITY IDLE_TIME info
              upstream_port).map (fun msg => (dpid, msg))
            ++ (create_match_entry_at_spine ENTRY_TABLE MID_PRIORITY info
                  spine_ingress_port spine_egress_port MID_IDLE_TIME).map
                (fun msg => (spine_id, msg))
            ++ [(dst_host.dpid,
                  Msg.packetOut OFPP_CONTROLLER [OFAction.output dst_host.port] pkt)]),
        none⟩ := by
  unfold packet_in_handler
  rw [h1]
  dsimp only
  rw [if_neg (show ¬(pkt.arp.isSome = true) from by simp [h2])]
  rw [h3]
  dsimp only
  rw [h4]
  dsimp only
  rw [h5]
  dsimp only
  rw [if_pos h6, h7]
  dsimp only
  rw [h8]
  dsimp only
  rw [h9, h10]

/-- Witness for `C2_known_remote_installs_and_forwards` on the concrete
scenario of the counterexample (destination `"bb"` at leaf 4, spine 1
selected by the hash). -/
theorem C2_witness :
    packet_in_handler demoNet stBBRemote 3 1 pktUdp =
      ⟨update_mac_table stBBRemote "aa" 1 3,
        (3, Msg.flowMod LOCAL_TABLE LOW_PRIORITY LONG_IDLE_TIME
            { eth_dst := some "aa" } [OFAction.output 1]) ::
          ((create_match_entry_at_leaf REMOTE_TABLE MID_PRIORITY IDLE_TIME
              ⟨Proto.udp, [10, 0, 0, 11], [10, 0, 0, 21], 5000, 7000⟩ 4).map
              (fun msg => (3, msg))
            ++ (create_match_entry_at_spine ENTRY_TABLE MID_PRIORITY
                  ⟨Proto.udp, [10, 0, 0, 11], [10, 0, 0, 21], 5000, 7000⟩ 1 2
                  MID_IDLE_TIME).map (fun msg => (1, msg))
            ++ [(4, Msg.packetOut OFPP_CONTROLLER [OFAction.output 2] pktUdp)]),
        none⟩ :=
  C2_known_remote_installs_and_forwards demoNet stBBRemote 3 1 pktUdp
    ⟨"bb", "aa"⟩ ⟨[10, 0, 0, 11], [10, 0, 0, 21]⟩
    ⟨Proto.udp, [10, 0, 0, 11], [10, 0, 0, 21], 5000, 7000⟩ ⟨2, 4⟩ 1 4 1 2
    rfl rfl rfl rfl (by decide) (by decide) rfl rfl rfl rfl

/-- Modelled from the spec: topology input for the ECMP group manager.  The
group manager itself (spec §4.4) and the topology classification it reads
(spec §3, §4.2) belong to this repository's controller that is not under
`src/` — `src/ryu_controller/metrics_exporter.py` is its in-repo reader
(it consults `controller.uplink_ports`, `controller.host_ports`,
`controller.switch_neighbors` and polls ECMP group statistics) but the
implementation is absent, so these definitions follow the spec's words.
A link fully determines one adjacency on each endpoint. -/
structure Link where
  src : Nat
  src_port : Nat
  dst : Nat
  dst_port : Nat
deriving DecidableEq

/-- Modelled from the spec: the primary topology inputs a rebuild reads —
the per-switch port list and the last-known link list (spec §3). -/
structure Topo where
  switch_ports : List (Nat × List Nat)
  links : List Link

/-- The reserved "local" port (`OFPP_LOCAL` of OpenFlow 1.3). -/
def OFPP_LOCAL : Nat := 0xfffffffe

/-- Modelled from the spec: the fixed identifier of the single multipath
group per leaf (spec §4.4 — "the group identifier is fixed and global"). -/
def ECMP_GROUP_ID : Nat := 1

/-- Modelled from the spec: the ports of a switch that appear in any link
are its uplink ports (spec §3, "Port classification"). -/
def uplink_ports (t : Topo) (sw : Nat) : List Nat :=
  ((t.links.filterMap (fun l => if l.src = sw then some l.src_port else none))
    ++ t.links.filterMap (fun l => if l.dst = sw then some l.dst_port else none)).dedup

/-- The port list recorded for a switch in the topology input. -/
def ports_of (t : Topo) (sw : Nat) : List Nat :=
  ((t.switch_ports.find? (fun sp => sp.1 = sw)).map (fun sp => sp.2)).getD []

/-- Modelled from the spec: every port of a switch except its uplinks and
the reserved local port is host-facing (spec §3). -/
def host_ports (t : Topo) (sw : Nat) : List Nat :=
  (ports_of t sw).filter
    (fun q => decide (q ∉ uplink_ports t sw) && decide (q ≠ OFPP_LOCAL))

/-- Group-table commands sent to a switch: delete the group with an id, or
create a multipath ("select") group with one output bucket per listed port. -/
inductive GroupCmd where
  | delGroup (sw gid : Nat)
  | addGroup (sw gid : Nat) (bucket_ports : List Nat)
deriving DecidableEq

/-- Per-switch bucket-port list of the fixed-identifier multipath group, or
`none` when the switch has no such group installed. -/
abbrev GroupState := Nat → Option (List Nat)

/-- Modelled from the spec: `install(switch_id)` of the ECMP Group Manager
(spec §4.4) — a no-op when the switch has no uplinks; otherwise delete any
existing group with the fixed identifier, then create a multipath group
with one bucket per uplink port, sorted by port number. -/
def install_ecmp_group (t : Topo) (gs : GroupState) (sw : Nat) :
    GroupState × List GroupCmd :=
  if uplink_ports t sw = [] then (gs, [])
  else
    let buckets := List.insertionSort (· ≤ ·) (uplink_ports t sw)
    (fun s => if s = sw then some buckets else gs s,
      [GroupCmd.delGroup sw ECMP_GROUP_ID, GroupCmd.addGroup sw ECMP_GROUP_ID buckets])

/-- Modelled from the spec: the switches a `rebuild()` re-installs groups
on — every switch whose recomputed host-port set is non-empty (spec §4.2),
i.e. the leaves (spec §3: the role is `leaf` exactly when a switch has at
least one host-facing port). -/
def leaf_switches (t : Topo) : List Nat :=
  (t.switch_ports.map (fun sp => sp.1)).filter (fun sw => decide (host_ports t sw ≠ []))

/-- One step of the rebuild loop: install on one switch, accumulating the
emitted group commands. -/
def rebuild_step (t : Topo) (acc : GroupState × List GroupCmd) (sw : Nat) :
    GroupState × List GroupCmd :=
  let r := install_ecmp_group t acc.1 sw
  (r.1, acc.2 ++ r.2)

/-- Modelled from the spec: `rebuild()` (spec §4.2) — after recomputing the
classification it invokes the ECMP Group Manager for every switch with a
non-empty host-port set. -/
def rebuild (t : Topo) (gs : GroupState) : GroupState × List GroupCmd :=
  (leaf_switches t).foldl (rebuild_step t) (gs, [])

/-- Installing a group on one switch never touches another switch's group. -/
theorem install_ecmp_group_other (t : Topo) (gs : GroupState) (b sw : Nat)
    (h : sw ≠ b) : (install_ecmp_group t gs b).1 sw = gs sw := by
  unfold install_ecmp_group
  split
  · rfl
  · dsimp only
    rw [if_neg h]

/-- The rebuild loop leaves switches outside the iterated list untouched. -/
theorem rebuild_fold_notmem (t : Topo) (sw : Nat) :
    ∀ (l : List Nat) (acc : GroupState × List GroupCmd), sw ∉ l →
      ((l.foldl (rebuild_step t) acc).1) sw = acc.1 sw := by
  intro l
  induction l with
  | nil => intro acc _; rfl
  | cons b rest ih =>
    intro acc hmem
    rw [List.foldl_cons, ih _ (fun hr => hmem (List.mem_cons_of_mem b hr))]
    exact install_ecmp_group_other t acc.1 b sw (fun hsb => hmem (hsb ▸ List.mem_cons_self b rest))

/-- After the rebuild loop runs over a list containing `sw`, and `sw` has
at least one uplink, `sw`'s group holds exactly its sorted uplink ports. -/
theorem rebuild_fold_mem (t : Topo) (sw : Nat) (hup : uplink_ports t sw ≠ []) :
    ∀ (l : List Nat) (acc : GroupState × List GroupCmd), sw ∈ l →
      ((l.foldl (rebuild_step t) acc).1) sw =
        some (List.insertionSort (· ≤ ·) (uplink_ports t sw)) := by
  intro l
  induction l with
  | nil => intro acc hmem; exact absurd hmem (List.not_mem_nil sw)
  | cons b rest ih =>
    intro acc hmem
    by_cases hr : sw ∈ rest
    · rw [List.foldl_cons]
      exact ih _ hr
    · have hsb : sw = b := by
        cases List.mem_cons.mp hmem with
        | inl h => exact h
        | inr h => exact absurd h hr
      subst hsb
      rw [List.foldl_cons, rebuild_fold_notmem t sw rest _ hr]
      show (install_ecmp_group t acc.1 sw).1 sw = _
      unfold install_ecmp_group
      rw [if_neg hup]
      dsimp only
      rw [if_pos rfl]

/-- C6 confirmed (spec-modelled): installing the ECMP group is a no-op on a
switch without uplinks; with uplinks it deletes the fixed-identifier group
and creates a select group with one bucket per uplink port sorted by port
number; and after any `rebuild()`, every leaf (switch with host ports) that
has at least one uplink holds exactly one multipath group whose bucket
ports are exactly its current uplink set — no stale bucket survives. -/
theorem C6_ecmp_group_rebuild (t : Topo) (gs : GroupState) (sw : Nat)
    (hleaf : sw ∈ leaf_switches t) (hup : uplink_ports t sw ≠ []) :
    (∀ (gs2 : GroupState) (b : Nat), uplink_ports t b = [] →
        install_ecmp_group t gs2 b = (gs2, [])) ∧
      (∀ (gs2 : GroupState) (b : Nat), uplink_ports t b ≠ [] →
          (install_ecmp_group t gs2 b).2 =
            [GroupCmd.delGroup b ECMP_GROUP_ID,
              GroupCmd.addGroup b ECMP_GROUP_ID
                (List.insertionSort (· ≤ ·) (uplink_ports t b))]) ∧
      (rebuild t gs).1 sw = some (List.insertionSort (· ≤ ·) (uplink_ports t sw)) ∧
      ∀ q, q ∈ (List.insertionSort (· ≤ ·) (uplink_ports t sw)) ↔ q ∈ uplink_ports t sw := by
  refine ⟨?_, ?_, ?_, ?_⟩
  · intro gs2 b hb
    unfold install_ecmp_group
    rw [if_pos hb]
  · intro gs2 b hb
    unfold install_ecmp_group
    rw [if_neg hb]
  · exact rebuild_fold_mem t sw hup (leaf_switches t) (gs, []) hleaf
  · intro q
    exact (List.perm_insertionSort (· ≤ ·) (uplink_ports t sw)).mem_iff

/-- The five-switch demo topology (2 spines, 3 leaves, full bipartite
fabric) as a topology input for the group manager. -/
def demoTopo : Topo :=
  ⟨[(1, [1, 2, 3]), (2, [1, 2, 3]), (3, [1, 2, 3, 4, 5]), (4, [1, 2, 3, 4, 5]),
      (5, [1, 2, 3, 4, 5])],
    [⟨3, 4, 1, 1⟩, ⟨3, 5, 2, 1⟩, ⟨4, 4, 1, 2⟩, ⟨4, 5, 2, 2⟩, ⟨5, 4, 1, 3⟩, ⟨5, 5, 2, 3⟩]⟩

/-- A group state with no group installed anywhere. -/
def emptyGroups : GroupState := fun _ => none

/-- Witness for `C6_ecmp_group_rebuild`: on the demo topology, leaf 3 (host
ports 1–3, uplinks 4 and 5) ends a rebuild with the bucket list `[4, 5]`. -/
theorem C6_witness :
    3 ∈ leaf_switches demoTopo ∧
      uplink_ports demoTopo 3 ≠ [] ∧
      (rebuild demoTopo emptyGroups).1 3 = some [4, 5] :=
  ⟨by decide, by decide,
    (C6_ecmp_group_rebuild demoTopo emptyGroups 3 (by decide) (by decide)).2.2.1⟩
